import Mathlib

/-!
Shallow embedding of the Beeminder CLI (`src/beeminder_client/beeminder_cli.py`
and the parts of `models.py` / `beeminder.py` it uses), together with proofs
about the embedded operations.

Modelling conventions:
* curses key codes are natural numbers (`KEY_UP = 259`, `KEY_DOWN = 258`,
  `KEY_BACKSPACE = 263`, Enter = 10, Escape = 27, Backspace alt = 127);
* Python `float` values are modelled as exact rationals `ℚ` (the claims under
  study never exercise IEEE rounding or overflow);
* Unix timestamps and screen coordinates are `Int`, like Python integers;
* text buffers are lists of character codes (`List Nat`);
* the blocking `getch` loop is driven by an explicit script of key codes; a
  model function returns `none` when the script is exhausted (the real loop
  would block waiting for further input).
-/

namespace BeeminderCLI

/-- Key code constants used by `beeminder_cli.py` (curses values). -/
def keyUp : Nat := 259

/-- curses `KEY_DOWN`. -/
def keyDown : Nat := 258

/-- curses `KEY_BACKSPACE`. -/
def keyBackspace : Nat := 263

/-- `chr(char).isdigit()` restricted to the codes that matter in
`InputWindow.get_input`: ASCII digits.  (Python also treats a few non-ASCII
codepoints such as 178 `²` as digits, but those are outside the printable
range 32..126 that the input loop appends, so the difference is
unobservable in `get_input`.) -/
def pyIsdigit (c : Nat) : Bool := 48 ≤ c && c ≤ 57

/-- Success of Python `float(s)` on the strings reachable inside the numeric
input loop (characters drawn from ASCII digits and `.` only): the buffer
must consist of digits and dots, contain at least one digit, and at most
one dot.  On that alphabet this coincides exactly with `float` succeeding,
and the parsed value is a finite decimal. -/
def pyFloatParses (buf : List Nat) : Bool :=
  buf.all (fun c => pyIsdigit c || c == 46) &&
  buf.any (fun c => pyIsdigit c) &&
  buf.countP (fun c => c == 46) ≤ 1

/-- Numeric value of a list of ASCII digit codes, most significant first. -/
def digitsVal (ds : List Nat) : Nat := ds.foldl (fun a c => a * 10 + (c - 48)) 0

/-- Value of Python `float(s)` on a digits-and-dot buffer accepted by
`pyFloatParses`, as an exact rational. -/
def pyParseFloat (buf : List Nat) : Option ℚ :=
  if pyFloatParses buf then
    let intPart := buf.takeWhile (fun c => c ≠ 46)
    let fracPart := (buf.dropWhile (fun c => c ≠ 46)).drop 1
    some ((digitsVal intPart : ℚ) + (digitsVal fracPart : ℚ) / 10 ^ fracPart.length)
  else none

/-- One run of `InputWindow.get_input` (beeminder_cli.py lines 20-72), driven
by the script `keys` of key codes; `buf` is the accumulated `input_str`.
Returns `some ((success, buffer), unconsumed_keys)` when the loop returns,
`none` when the script runs out while the loop would still be blocking.
The screen drawing calls are side effects outside the state model; the
"Invalid number!" branch is visible here as consuming one extra key
(`self.window.getch()`) and continuing the loop with the buffer intact. -/
def getInputLoop (numeric : Bool) : List Nat → List Nat → Option ((Bool × List Nat) × List Nat)
  | _, [] => none
  | buf, k :: rest =>
    if k = 27 then some ((false, []), rest)
    else if k = 10 then
      if numeric then
        if pyFloatParses buf then some ((true, buf), rest)
        else
          match rest with
          | [] => none
          | _ :: rest2 => getInputLoop numeric buf rest2
      else some ((true, buf), rest)
    else if k = keyBackspace ∨ k = 127 then getInputLoop numeric buf.dropLast rest
    else if numeric ∧ ¬(pyIsdigit k || k == 46) = true then getInputLoop numeric buf rest
    else if 32 ≤ k ∧ k ≤ 126 then getInputLoop numeric (buf ++ [k]) rest
    else getInputLoop numeric buf rest
termination_by _ keys => keys.length
decreasing_by all_goals simp_wf <;> omega

/-- `InputWindow.get_input`: start the loop with an empty buffer. -/
def getInput (numeric : Bool) (keys : List Nat) : Option ((Bool × List Nat) × List Nat) :=
  getInputLoop numeric [] keys

/-- The fields of the pydantic model `BeeminderGoal` (`models.py`) that the
CLI reads.  Every field is `Optional` with default `None` in the source;
floats become `ℚ`, timestamps become `Int`. -/
structure BeeminderGoal where
  slug : Option String := none
  updated_at : Option Int := none
  title : Option String := none
  fineprint : Option String := none
  yaxis : Option String := none
  goalval : Option ℚ := none
  rate : Option ℚ := none
  runits : Option String := none
  autodata : Option String := none
  goal_type : Option String := none
  losedate : Option Int := none
  pledge : Option ℚ := none
  curval : Option ℚ := none
  currate : Option ℚ := none
  frozen : Option Bool := none
  won : Option Bool := none
  lost : Option Bool := none
  delta_text : Option String := none
  safebuf : Option Int := none
  description : Option String := none
  deadline : Option Int := none
  gunits : Option String := none
  weekends_off : Option Bool := none
  tags : Option (List String) := none
deriving DecidableEq, Repr

/-- Python `s.ljust(w)`: pad with spaces on the right up to width `w`;
strings already at least `w` long are returned unchanged. -/
def pyLjust (s : String) (w : Nat) : String :=
  s ++ String.mk (List.replicate (w - s.length) ' ')

/-- Python truthiness of `x or 0` for an optional number: `None` and `0.0`
are falsy and give `0`, anything else gives the value itself.  Over `ℚ`
this is exactly `Option.getD v 0`. -/
def pyOrZero (v : Option ℚ) : ℚ := v.getD 0

/-- Python `f"{x:.1f}"` on the exact rational value: round to the nearest
tenth (`tenths = ⌊10q + 1/2⌋`, written on `q.num`/`q.den` so that it
kernel-evaluates) and print one digit after the point.  (CPython rounds
the nearest binary double half-to-even; on the values exercised here — in
particular `0` — the two agree.) -/
def fmtFixed1 (q : ℚ) : String :=
  let tenths : Int := (20 * q.num + q.den).fdiv (2 * q.den)
  let sign := if tenths < 0 then "-" else ""
  let a := tenths.natAbs
  sign ++ toString (a / 10) ++ "." ++ toString (a % 10)

/-- Python `f"{x:.2f}"` on the exact rational value, analogous to
`fmtFixed1` (`cents = ⌊100q + 1/2⌋`). -/
def fmtFixed2 (q : ℚ) : String :=
  let cents : Int := (200 * q.num + q.den).fdiv (2 * q.den)
  let sign := if cents < 0 then "-" else ""
  let a := cents.natAbs
  sign ++ toString (a / 100) ++ "." ++
    (if a % 100 < 10 then "0" else "") ++ toString (a % 100)

/-- Zero-padded two-digit rendering of a `Nat`, as in `strftime` fields. -/
def pad2 (n : Nat) : String := if n < 10 then "0" ++ toString n else toString n

/-- Civil date (year, month, day) from a count of days since 1970-01-01
(Gregorian, proleptic).  Supports `BeeminderCLI.format_date`, which calls
`datetime.datetime.fromtimestamp`. -/
def civilFromDays (z0 : Int) : Int × Nat × Nat :=
  let z := z0 + 719468
  let era := (if 0 ≤ z then z else z - 146096) / 146097
  let doe := (z - era * 146097).toNat
  let yoe := (doe - doe / 1460 + doe / 36524 - doe / 146096) / 365
  let doy := doe - (365 * yoe + yoe / 4 - yoe / 100)
  let mp := (5 * doy + 2) / 153
  let d := doy - (153 * mp + 2) / 5 + 1
  let m := if mp < 10 then mp + 3 else mp - 9
  ((yoe : Int) + era * 400 + (if m ≤ 2 then 1 else 0), m, d)

/-- `BeeminderCLI.format_date` (lines 102-106): `None` renders as `"N/A"`,
otherwise the timestamp is rendered as `"%Y-%m-%d %H:%M"`.  The source
formats in the process-local timezone; the model fixes the timezone to
UTC, which does not affect the `None ↦ "N/A"` behaviour under study. -/
def formatDate (ts : Option Int) : String :=
  match ts with
  | none => "N/A"
  | some t =>
    let days := t.fdiv 86400
    let sod := (t - days * 86400).toNat
    let c := civilFromDays days
    toString c.1 ++ "-" ++ pad2 c.2.1 ++ "-" ++ pad2 c.2.2 ++ " " ++
      pad2 (sod / 3600) ++ ":" ++ pad2 (sod % 3600 / 60)

/-- The body of `BeeminderCLI.format_time_left` after the deadline has been
turned into a signed duration `d = losedate - now` in whole seconds
(lines 112-128).  `timedelta.days` is floor division by 86400 and
`timedelta.seconds` the remainder; for `d ≥ 0` (the only branch that uses
them) these agree with truncating `Int` division. -/
def formatDelta (d : Int) : String :=
  if d < 0 then "EXPIRED"
  else
    let days := d / 86400
    let hours := d % 86400 / 3600
    let minutes := d % 86400 % 3600 / 60
    if 0 < days then toString days ++ "d " ++ toString hours ++ "h"
    else if 0 < hours then toString hours ++ "h " ++ toString minutes ++ "m"
    else toString minutes ++ "m"

/-- `BeeminderCLI.format_time_left` (lines 108-128): `None` renders as
`"N/A"`, otherwise the signed duration until `losedate` is formatted by
`formatDelta`. -/
def formatTimeLeft (losedate : Option Int) (now : Int) : String :=
  match losedate with
  | none => "N/A"
  | some t => formatDelta (t - now)

/-- `BeeminderCLI.get_goal_status` (lines 130-138); Python truthiness of an
optional boolean field is `Option.getD · false`. -/
def getGoalStatus (g : BeeminderGoal) : String :=
  if g.lost.getD false then "LOST"
  else if g.won.getD false then "WON"
  else if g.frozen.getD false then "FROZEN"
  else "ACTIVE"

/-- The `Current` cell of a goal-table row:
`f"{goal.curval or 0:.1f}".ljust(self.col_widths[2])` with width 10
(`draw_goals_list`, line 182). -/
def currentCell (g : BeeminderGoal) : String := pyLjust (fmtFixed1 (pyOrZero g.curval)) 10

/-- The `Goal` cell of a goal-table row:
`f"{goal.goalval or 0:.1f}".ljust(self.col_widths[3])` with width 10
(`draw_goals_list`, line 183). -/
def goalCell (g : BeeminderGoal) : String := pyLjust (fmtFixed1 (pyOrZero g.goalval)) 10

/-- Decode a list of character codes to a string (inverse of the byte-wise
accumulation in the input loop). -/
def codesToString (cs : List Nat) : String := String.mk (cs.map Char.ofNat)

/-- The fixed field list of `BeeminderCLI.draw_goal_detail` (lines 205-229),
in source order.  Entries whose Python value is an `Optional[str]` field
keep the option; entries built with an f-string are always-present
strings.  `now` is the current time consumed by `format_time_left`. -/
def detailLines (now : Int) (g : BeeminderGoal) : List (String × Option String) :=
  [ ("Slug", g.slug),
    ("Title", g.title),
    ("Description", g.description),
    ("Current Value", some (fmtFixed1 (pyOrZero g.curval))),
    ("Goal Value", some (fmtFixed1 (pyOrZero g.goalval))),
    ("Rate", some (fmtFixed1 (pyOrZero g.rate))),
    ("Run Units", g.runits),
    ("Goal Units", g.gunits),
    ("Goal Type", g.goal_type),
    ("Pledge", some ("$" ++ fmtFixed2 (pyOrZero g.pledge))),
    ("Lose Date", some (formatDate g.losedate)),
    ("Time Remaining", some (formatTimeLeft g.losedate now)),
    ("Last Updated", some (formatDate g.updated_at)),
    ("Status", some (getGoalStatus g)),
    ("Auto Data", g.autodata),
    ("Fine Print", g.fineprint),
    ("Y-Axis", g.yaxis),
    ("Current Rate", some (fmtFixed2 (pyOrZero g.currate))),
    ("Delta", g.delta_text),
    ("Safe Buffer", some (toString (g.safebuf.getD 0) ++ " days")),
    ("Deadline", some (toString (g.deadline.getD 0) ++ ":00")),
    ("Weekends Off", some (if g.weekends_off.getD false then "Yes" else "No")),
    ("Tags", some (String.intercalate ", " (g.tags.getD []))) ]

/-- The value text drawn for one detail entry (lines 246-257): Python
`if value:` — so `None` and the empty string render the literal `"N/A"`;
a truthy value is drawn as its text (here kept whole; the source wraps it
over lines of fixed width, a pure display segmentation). -/
def renderDetailValue (v : Option String) : String :=
  match v with
  | none => "N/A"
  | some s => if s = "" then "N/A" else s

/-- One rendered detail row (lines 242-256): the bold label
`f"{key}:".ljust(20)` drawn at column 2, and the value text drawn from
column 22. -/
def renderDetailLine (p : String × Option String) : String × String :=
  (pyLjust (p.1 ++ ":") 20, renderDetailValue p.2)

/-- The detail-view scroll handler of `BeeminderCLI.run` (lines 328-331):
Up decrements only when the offset is positive, Down increments
unconditionally, anything else is a no-op. -/
def detailScroll (key : Nat) (off : Int) : Int :=
  if key = keyUp ∧ 0 < off then off - 1
  else if key = keyDown then off + 1
  else off

/-- The list-view Up/Down handler of `BeeminderCLI.run` (lines 303-310),
with `vh = height - 4` the number of visible table rows: Up moves the
selection up unless at 0 and drags the offset down to it; Down moves the
selection down unless at `len - 1` and, when the selection leaves the
window, sets `offset = selected - (height - 5) = selected - (vh - 1)`. -/
def navigate (key : Nat) (len : Nat) (vh : Int) (sel off : Int) : Int × Int :=
  if key = keyUp ∧ 0 < sel then
    (sel - 1, if sel - 1 < off then sel - 1 else off)
  else if key = keyDown ∧ sel < (len : Int) - 1 then
    (sel + 1, if off + vh ≤ sel + 1 then sel + 1 - (vh - 1) else off)
  else (sel, off)

/-- Python list indexing `xs[i]` with an `int` index: non-negative indices
from the front, negative indices from the back, `none` = `IndexError`. -/
def pyIndex {α : Type} (xs : List α) (i : Int) : Option α :=
  if 0 ≤ i then xs.get? i.toNat
  else if 0 ≤ i + xs.length then xs.get? (i + xs.length).toNat
  else none

/-- The two view modes of `BeeminderCLI` (`self.view_mode`). -/
inductive ViewMode where
  | list
  | detail
deriving DecidableEq, Repr

/-- The mutable state of a `BeeminderCLI` instance (constructor, lines
76-86) that the event loop reads and writes. -/
structure CLIState where
  goals : List BeeminderGoal := []
  selected : Int := 0
  offset : Int := 0
  viewMode : ViewMode := .list
  detailOffset : Int := 0
  currentGoalDetail : Option BeeminderGoal := none
deriving DecidableEq, Repr

/-- The state `BeeminderCLI.__init__` leaves behind. -/
def initState : CLIState := {}

/-- Deterministic oracle for the data-access boundary (`BeeminderAPI`): the
outcome each of the three operations used by the CLI would produce if
called now.  `Except.error m` models the call raising an exception with
message `m`. -/
structure Api where
  allGoals : Except String (List BeeminderGoal)
  goalDetail : Option String → Except String BeeminderGoal
  createDp : Option String → ℚ → Option String → Except String Unit

/-- Result of one iteration of the `BeeminderCLI.run` loop: continue with a
new state, quit (`q`), crash with an uncaught exception propagating out of
`run`, or block because the scripted prompt input ran out. -/
inductive StepOutcome where
  | toState (s : CLIState)
  | quit
  | crash (msg : String)
  | blocked
deriving DecidableEq, Repr

/-- `BeeminderCLI.create_datapoint` (lines 333-366), driven by the key
script `keys` for its two prompts.  Returns `some (result, overlay)`
where `overlay` is the error message shown in a dismiss-on-keypress
window when the `try` block raised; `none` when the key script ran out.
Only the body of the `try` is protected — the two `get_input` calls are
not, but they raise nothing in this model. -/
def createDatapoint (api : Api) (slug : Option String) (keys : List Nat) :
    Option (Bool × Option String) :=
  match getInput true keys with
  | none => none
  | some ((false, _), _) => some (false, none)
  | some ((true, valbuf), rest) =>
    match getInput false rest with
    | none => none
    | some ((false, _), _) => some (false, none)
    | some ((true, cbuf), rest2) =>
      let comment : Option String := if cbuf.isEmpty then none else some (codesToString cbuf)
      let attempt : Except String Unit :=
        match pyParseFloat valbuf with
        | none => .error ("could not convert string to float: " ++ codesToString valbuf)
        | some v => api.createDp slug v comment
      match attempt with
      | .ok _ => some (true, none)
      | .error m =>
        match rest2 with
        | [] => none
        | _ :: _ => some (false, some ("Error creating datapoint: " ++ m))

/-- The eager initial `self.fetch_goals()` of `BeeminderCLI.run` (line 270):
not wrapped in any handler, so an API failure propagates out of `run`. -/
def runStartup (api : Api) (s : CLIState) : StepOutcome :=
  match api.allGoals with
  | .ok gs => .toState { s with goals := gs }
  | .error m => .crash m

/-- One iteration of the list-view branch of `BeeminderCLI.run`
(lines 289-310) on key `key`; `keys` scripts any prompts opened during the
iteration and `height` is the terminal height.  `fetch_goals` and
`fetch_goal_detail` have no surrounding handler, so their failures crash;
`self.goals[self.selected_index]` raises `IndexError` when the stored
selection is out of range. -/
def listStep (api : Api) (s : CLIState) (key : Nat) (keys : List Nat) (height : Int) :
    StepOutcome :=
  if key = 113 then .quit
  else if key = 119 then .toState s
  else if key = 114 then
    match api.allGoals with
    | .ok gs => .toState { s with goals := gs }
    | .error m => .crash m
  else if key = 99 ∧ s.goals ≠ [] then
    match pyIndex s.goals s.selected with
    | none => .crash "IndexError: list index out of range"
    | some g =>
      match createDatapoint api g.slug keys with
      | none => .blocked
      | some (true, _) =>
        match api.allGoals with
        | .ok gs => .toState { s with goals := gs }
        | .error m => .crash m
      | some (false, _) => .toState s
  else if key = 105 ∧ s.goals ≠ [] then
    match pyIndex s.goals s.selected with
    | none => .crash "IndexError: list index out of range"
    | some g =>
      match api.goalDetail g.slug with
      | .ok d =>
        .toState { s with viewMode := .detail, detailOffset := 0, currentGoalDetail := some d }
      | .error m => .crash m
  else
    let p := navigate key s.goals.length (height - 4) s.selected s.offset
    .toState { s with selected := p.1, offset := p.2 }

/-- Python truthiness of an environment lookup: `os.getenv` returns `None`
when unset, and both `None` and the empty string fail `if not x:`. -/
def pyTruthyStr (v : Option String) : Bool :=
  match v with
  | none => false
  | some s => !(s = "")

/-- `main` (lines 369-382): returns the list of messages printed and whether
the interactive UI (`curses.wrapper(app.run)`) is entered.  A missing API
key returns before the UI; a missing username prints its message **and
falls through** into the UI. -/
def mainStartup (apiKey username : Option String) : List String × Bool :=
  if !(pyTruthyStr apiKey) then (["Please set BEEMINDER_API_KEY environment variable"], false)
  else if !(pyTruthyStr username) then
    (["Please set BEEMINDER_USERNAME environment variable"], true)
  else ([], true)

/-- Iterated list-view navigation: apply `navigate` with the same key `n`
times to a `(selected, offset)` pair. -/
def navIter (key : Nat) (len : Nat) (vh : Int) : Nat → Int × Int → Int × Int
  | 0, p => p
  | n + 1, p => navIter key len vh n (navigate key len vh p.1 p.2)

/-- The selection/scroll invariant of the goal table (spec §3): with a
non-empty collection, `0 ≤ selected < len`, `0 ≤ offset ≤ selected`, and
the selection lies inside the window `[offset, offset + vh)`. -/
def NavInvariant (len : Nat) (vh : Int) (p : Int × Int) : Prop :=
  0 ≤ p.1 ∧ p.1 < (len : Int) ∧ 0 ≤ p.2 ∧ p.2 ≤ p.1 ∧ p.1 < p.2 + vh

/-- `(selected, offset)` pairs reachable from the initial state `(0, 0)` by
any sequence of list-view key events, the collection and viewport held
fixed. -/
inductive ReachableNav (len : Nat) (vh : Int) : Int × Int → Prop where
  | init : ReachableNav len vh (0, 0)
  | step (key : Nat) (p : Int × Int) (h : ReachableNav len vh p) :
      ReachableNav len vh (navigate key len vh p.1 p.2)

/-- A goal record with every optional field absent (pydantic defaults). -/
def emptyGoal : BeeminderGoal := {}

/-- An API oracle whose fetch operations fail with a transport error. -/
def apiFetchFails : Api :=
  { allGoals := .error "TransportError: connection refused",
    goalDetail := fun _ => .error "TransportError: connection refused",
    createDp := fun _ _ _ => .ok () }

/-- An API oracle whose create-datapoint operation fails server-side. -/
def apiCreateFails : Api :=
  { allGoals := .ok [],
    goalDetail := fun _ => .ok emptyGoal,
    createDp := fun _ _ _ => .error "ValidationError: bad value" }

/-- An API oracle whose goal collection has shrunk to two entries. -/
def apiShrink : Api :=
  { allGoals := .ok [emptyGoal, emptyGoal],
    goalDetail := fun _ => .ok emptyGoal,
    createDp := fun _ _ _ => .ok () }

/-- A list-view state over six goals with the last row selected (a state the
navigation handlers reach from `initState` when six goals are loaded). -/
def sixGoalsSelectedLast : CLIState :=
  { goals := List.replicate 6 emptyGoal, selected := 5, offset := 4 }

/-- A list-view state with a single loaded goal. -/
def oneGoalState : CLIState := { goals := [emptyGoal] }

/-! ## Theorems -/

/-- C1 counterexample: with the data-access layer failing, the startup
fetch, the `r` refetch, and the `i` detail fetch all end in `.crash` —
the exception propagates out of `BeeminderCLI.run` (there is no handler
around `fetch_goals` / `fetch_goal_detail`), so the failure is not
surfaced as a dismissable message and the process dies.  This refutes the
claim that every data-access failure in the three operations is surfaced
without crashing. -/
theorem fetch_failure_crashes :
    runStartup apiFetchFails initState = .crash "TransportError: connection refused" ∧
    listStep apiFetchFails initState 114 [] 24 = .crash "TransportError: connection refused" ∧
    listStep apiFetchFails oneGoalState 105 [] 24 = .crash "TransportError: connection refused" :=
  ⟨rfl, rfl, rfl⟩

/-- C1 amended: a failure of the create-datapoint call is caught and
surfaced as a dismiss-on-keypress overlay message, but a failure of the
goal-collection fetch (here on key `r`) propagates uncaught and crashes
the loop. -/
theorem create_failure_surfaced_fetch_failure_crashes :
    (∀ (api : Api) (s : CLIState) (keys : List Nat) (ht : Int) (m : String),
      api.allGoals = .error m → listStep api s 114 keys ht = .crash m) ∧
    (∀ (api : Api) (slug : Option String) (m : String),
      api.createDp slug 1 none = .error m →
      createDatapoint api slug [49, 10, 10, 32] =
        some (false, some ("Error creating datapoint: " ++ m))) := by
  constructor
  · intro api s keys ht m hm
    simp [listStep, hm]
  · intro api slug m hm
    have hval : pyParseFloat [49] = some 1 := by
      simp [pyParseFloat, pyFloatParses, pyIsdigit, digitsVal]
    simp [createDatapoint, getInput, getInputLoop, pyFloatParses, pyIsdigit, keyBackspace,
      hval, hm]

/-- Witness for the amended C1 theorem at concrete oracles. -/
theorem create_failure_surfaced_fetch_failure_crashes_witness :
    listStep apiFetchFails oneGoalState 114 [] 24 = .crash "TransportError: connection refused" ∧
    createDatapoint apiCreateFails (some "g") [49, 10, 10, 32] =
      some (false, some ("Error creating datapoint: " ++ "ValidationError: bad value")) :=
  ⟨create_failure_surfaced_fetch_failure_crashes.1 apiFetchFails oneGoalState [] 24
      "TransportError: connection refused" rfl,
    create_failure_surfaced_fetch_failure_crashes.2 apiCreateFails (some "g")
      "ValidationError: bad value" rfl⟩

/-- C2: the `r` refetch replaces the collection but never clamps
`selected_index`/`offset`.  Starting from six goals with row 5 selected,
a refetch that returns two goals leaves `selected = 5 ≥ 2`; the next `i`
(or `c`) then evaluates `self.goals[5]` and raises `IndexError`.  The
spec's required clamping is absent from the code. -/
theorem refetch_does_not_clamp :
    listStep apiShrink sixGoalsSelectedLast 114 [] 24 =
      .toState { sixGoalsSelectedLast with goals := [emptyGoal, emptyGoal] } ∧
    ({ sixGoalsSelectedLast with goals := [emptyGoal, emptyGoal] } : CLIState).selected = 5 ∧
    ¬(({ sixGoalsSelectedLast with goals := [emptyGoal, emptyGoal] } : CLIState).selected <
        (([emptyGoal, emptyGoal] : List BeeminderGoal).length : Int)) ∧
    listStep apiShrink { sixGoalsSelectedLast with goals := [emptyGoal, emptyGoal] } 105 [] 24 =
      .crash "IndexError: list index out of range" := by
  refine ⟨rfl, rfl, by decide, by decide⟩

/-- C3: `main` returns before the UI when the API key is missing (or
empty), but when only the username is missing it prints the message and
still enters the interactive UI — the `return` is missing, refuting the
claim that the terminal UI is never entered. -/
theorem missing_username_still_enters_ui :
    mainStartup (some "k") none =
      (["Please set BEEMINDER_USERNAME environment variable"], true) ∧
    mainStartup (some "k") (some "") =
      (["Please set BEEMINDER_USERNAME environment variable"], true) ∧
    mainStartup none none = (["Please set BEEMINDER_API_KEY environment variable"], false) ∧
    mainStartup (some "") (some "u") =
      (["Please set BEEMINDER_API_KEY environment variable"], false) :=
  ⟨rfl, rfl, rfl, rfl⟩

/-- In numeric mode, the input loop only ever returns `success = true`
through the branch that has just checked `float(input_str)` succeeds. -/
theorem getInputLoop_true_submit_parses :
    ∀ (buf keys : List Nat), ∀ res lo,
      getInputLoop true buf keys = some ((true, res), lo) → pyFloatParses res = true := by
  intro buf keys
  induction buf, keys using getInputLoop.induct true with
  | case1 x => intro res lo h; rw [getInputLoop.eq_def] at h; simp at h
  | case2 b rest => intro res lo h; rw [getInputLoop.eq_def] at h; simp at h
  | case3 b rest hn hpf h27 =>
    intro res lo h
    rw [getInputLoop.eq_def] at h
    simp [hpf] at h
    obtain ⟨h1, h2⟩ := h
    subst h1
    exact hpf
  | case4 b hn hpf h27 =>
    intro res lo h
    rw [getInputLoop.eq_def] at h
    simp [hpf] at h
  | case5 b hn hpf head rest2 h27 ih =>
    intro res lo h
    rw [getInputLoop.eq_def] at h
    simp [hpf] at h
    exact ih res lo h
  | case6 b rest hn h27 => exact absurd rfl hn
  | case7 b k rest h27 h10 hbs ih =>
    intro res lo h
    rw [getInputLoop.eq_def] at h
    simp [h27, h10, hbs] at h
    exact ih res lo h
  | case8 b k rest h27 h10 hbs hnum ih =>
    intro res lo h
    rw [getInputLoop.eq_def] at h
    simp [h27, h10, hbs, hnum.2] at h
    exact ih res lo h
  | case9 b k rest h27 h10 hbs hnum hpr ih =>
    intro res lo h
    have hd : (pyIsdigit k || k == 46) = true := by cases hh : pyIsdigit k <;> simp_all
    rw [getInputLoop.eq_def] at h
    simp [h27, h10, hbs, hpr, hd] at h
    exact ih res lo h
  | case10 b k rest h27 h10 hbs hnum hpr ih =>
    intro res lo h
    rw [getInputLoop.eq_def] at h
    simp [h27, h10, hbs, hpr] at h
    exact ih res lo h

/-- C4: `InputWindow.get_input` with `numeric=True` never returns
`(True, buffer)` with a buffer `float` would reject — on the digit/dot
alphabet the loop admits, `pyFloatParses` coincides with `float`
succeeding, and the parsed value is a finite decimal.  Moreover, on Enter
with a non-parsing buffer, the loop shows the inline error, consumes one
dismissal keystroke, and continues editing with the buffer intact rather
than closing the prompt. -/
theorem numeric_prompt_never_submits_unparseable :
    (∀ keys res lo, getInput true keys = some ((true, res), lo) → pyFloatParses res = true) ∧
    (∀ buf k rest, pyFloatParses buf = false →
      getInputLoop true buf (10 :: k :: rest) = getInputLoop true buf rest) := by
  constructor
  · intro keys res lo h
    exact getInputLoop_true_submit_parses [] keys res lo h
  · intro buf k rest hpf
    rw [getInputLoop.eq_def]
    simp [hpf]

/-- Witness for the C4 theorem: the script `'1'`, Enter submits and the
returned buffer parses. -/
theorem numeric_prompt_never_submits_unparseable_witness : pyFloatParses [49] = true :=
  numeric_prompt_never_submits_unparseable.1 [49, 10] [49] []
    (by simp [getInput, getInputLoop, pyFloatParses, pyIsdigit, keyBackspace])

/-- C5 counterexample: the detail field list has 23 entries, yet one Down
keypress from offset 22 yields offset 23, outside the claimed range
`[0, max(0, field_count − 1)]` — the handler has no upper clamp at all. -/
theorem detailScroll_no_upper_clamp :
    (detailLines 0 emptyGoal).length = 23 ∧
    detailScroll keyDown 22 = 23 ∧
    ¬(detailScroll keyDown 22 ≤ max 0 ((23 : Int) - 1)) := by
  refine ⟨rfl, by decide, by decide⟩

/-- C5 amended: the detail-pane scroll never goes below zero (Up clamps at
0), but Down increments the offset unconditionally, with no upper clamp
against the field count. -/
theorem detailScroll_lower_clamp (key : Nat) (off : Int) (h : 0 ≤ off) :
    0 ≤ detailScroll key off ∧ detailScroll keyDown off = off + 1 := by
  constructor
  · unfold detailScroll
    split_ifs <;> omega
  · simp [detailScroll, keyUp, keyDown]

/-- Witness for the amended C5 theorem at offset 0. -/
theorem detailScroll_lower_clamp_witness :
    0 ≤ detailScroll 259 0 ∧ detailScroll keyDown 0 = 0 + 1 :=
  detailScroll_lower_clamp 259 0 (by decide)

/-- One navigation step preserves the selection/scroll invariant (any key,
viewport of at least one row). -/
theorem navigate_preserves_invariant (len : Nat) (vh : Int) (key : Nat) (p : Int × Int)
    (hv : 1 ≤ vh) (h : NavInvariant len vh p) :
    NavInvariant len vh (navigate key len vh p.1 p.2) := by
  obtain ⟨h1, h2, h3, h4, h5⟩ := h
  unfold NavInvariant navigate
  split_ifs <;> simp_all <;> omega

/-- Every `(selected, offset)` pair reachable by navigation from the initial
state satisfies the invariant, for a non-empty collection and a viewport
of at least one row. -/
theorem reachable_invariant (len : Nat) (vh : Int) (p : Int × Int) (hlen : 1 ≤ len)
    (hv : 1 ≤ vh) (h : ReachableNav len vh p) : NavInvariant len vh p := by
  induction h with
  | init => refine ⟨le_refl 0, ?_, le_refl 0, le_refl 0, ?_⟩ <;> omega
  | step key p hp ih => exact navigate_preserves_invariant len vh key p hv ih

/-- C6: from any reachable `(selected, offset)` pair over a non-empty
collection, any further Up/Down (or other) key event yields
`0 ≤ selected < len`, `0 ≤ offset ≤ selected`, and a selection inside
the window `[offset, offset + viewport_height)`. -/
theorem navigate_keeps_selection_in_window (len : Nat) (vh : Int) (p : Int × Int) (key : Nat)
    (hlen : 1 ≤ len) (hv : 1 ≤ vh) (hr : ReachableNav len vh p) :
    0 ≤ (navigate key len vh p.1 p.2).1 ∧
    (navigate key len vh p.1 p.2).1 < (len : Int) ∧
    0 ≤ (navigate key len vh p.1 p.2).2 ∧
    (navigate key len vh p.1 p.2).2 ≤ (navigate key len vh p.1 p.2).1 ∧
    (navigate key len vh p.1 p.2).1 < (navigate key len vh p.1 p.2).2 + vh :=
  navigate_preserves_invariant len vh key p hv (reachable_invariant len vh p hlen hv hr)

/-- Witness for the C6 theorem: one Down from the initial state over three
goals with a 20-row viewport. -/
theorem navigate_keeps_selection_in_window_witness :
    0 ≤ (navigate 258 3 20 0 0).1 ∧
    (navigate 258 3 20 0 0).1 < ((3 : Nat) : Int) ∧
    0 ≤ (navigate 258 3 20 0 0).2 ∧
    (navigate 258 3 20 0 0).2 ≤ (navigate 258 3 20 0 0).1 ∧
    (navigate 258 3 20 0 0).1 < (navigate 258 3 20 0 0).2 + 20 :=
  navigate_keeps_selection_in_window 3 20 (0, 0) 258 (by decide) (by decide) ReachableNav.init

/-- The selection component after one Up event: decrement unless at 0. -/
theorem navigate_up_fst (len : Nat) (vh sel off : Int) :
    (navigate keyUp len vh sel off).1 = if 0 < sel then sel - 1 else sel := by
  unfold navigate
  split_ifs <;> simp_all [keyUp, keyDown]

/-- The selection component after one Down event: increment unless at
`len - 1`. -/
theorem navigate_down_fst (len : Nat) (vh sel off : Int) :
    (navigate keyDown len vh sel off).1 = if sel < (len : Int) - 1 then sel + 1 else sel := by
  unfold navigate
  split_ifs <;> simp_all [keyUp, keyDown]

/-- Selection after `n` Up events: clamped subtraction. -/
theorem navIter_up_fst (len : Nat) (vh : Int) :
    ∀ (n : Nat) (p : Int × Int), 0 ≤ p.1 →
      (navIter keyUp len vh n p).1 = max 0 (p.1 - n) := by
  intro n
  induction n with
  | zero => intro p hp; simp [navIter]; omega
  | succ n ih =>
    intro p hp
    show (navIter keyUp len vh n (navigate keyUp len vh p.1 p.2)).1 = _
    rw [ih _ (by rw [navigate_up_fst]; split_ifs <;> omega), navigate_up_fst]
    split_ifs <;> omega

/-- Selection after `n` Down events: clamped addition. -/
theorem navIter_down_fst (len : Nat) (vh : Int) :
    ∀ (n : Nat) (p : Int × Int), p.1 ≤ (len : Int) - 1 →
      (navIter keyDown len vh n p).1 = min ((len : Int) - 1) (p.1 + n) := by
  intro n
  induction n with
  | zero => intro p hp; simp [navIter]; omega
  | succ n ih =>
    intro p hp
    show (navIter keyDown len vh n (navigate keyDown len vh p.1 p.2)).1 = _
    rw [ih _ (by rw [navigate_down_fst]; split_ifs <;> omega), navigate_down_fst]
    split_ifs <;> omega

/-- C8: from any valid index `i` into the collection, `i` Up events reach
selection 0 and a further Up is a no-op on the selection; symmetrically,
`len - 1 - i` Down events reach `len - 1` and a further Down is a no-op.
No wraparound occurs at either boundary. -/
theorem navigation_clamps_at_bounds (len : Nat) (vh : Int) (i off : Int)
    (h0 : 0 ≤ i) (h1 : i < (len : Int)) :
    (navIter keyUp len vh i.toNat (i, off)).1 = 0 ∧
    (∀ off2 : Int, (navigate keyUp len vh 0 off2).1 = 0) ∧
    (navIter keyDown len vh ((len : Int) - 1 - i).toNat (i, off)).1 = (len : Int) - 1 ∧
    (∀ off2 : Int, (navigate keyDown len vh ((len : Int) - 1) off2).1 = (len : Int) - 1) := by
  refine ⟨?_, ?_, ?_, ?_⟩
  · rw [navIter_up_fst len vh _ _ h0]
    omega
  · intro off2
    rw [navigate_up_fst]
    simp
  · rw [navIter_down_fst len vh _ _ (by simp; omega)]
    omega
  · intro off2
    rw [navigate_down_fst]
    simp

/-- Witness for the C8 theorem: index 1 in a 3-goal collection. -/
theorem navigation_clamps_at_bounds_witness :
    (navIter keyUp 3 7 (1 : Int).toNat (1, 0)).1 = 0 ∧
    (navigate keyUp 3 7 0 4).1 = 0 ∧
    (navIter keyDown 3 7 (((3 : Nat) : Int) - 1 - 1).toNat (1, 0)).1 = ((3 : Nat) : Int) - 1 ∧
    (navigate keyDown 3 7 (((3 : Nat) : Int) - 1) 9).1 = ((3 : Nat) : Int) - 1 := by
  have h := navigation_clamps_at_bounds 3 7 1 0 (by decide) (by decide)
  exact ⟨h.1, h.2.1 4, h.2.2.1, h.2.2.2 9⟩

/-- C7: every entry of the fixed detail field list renders as a
colon-suffixed label padded to exactly width 20 (drawn bold), and
whenever the entry's value is absent the value text is the literal
`"N/A"`. -/
theorem detail_absent_value_renders_na (now : Int) (g : BeeminderGoal)
    (p : String × Option String) (hmem : p ∈ detailLines now g) :
    (renderDetailLine p).1 = pyLjust (p.1 ++ ":") 20 ∧
    (renderDetailLine p).1.length = 20 ∧
    (p.2 = none → (renderDetailLine p).2 = "N/A") := by
  refine ⟨rfl, ?_, ?_⟩
  · simp only [detailLines, List.mem_cons, List.not_mem_nil, or_false] at hmem
    rcases hmem with h|h|h|h|h|h|h|h|h|h|h|h|h|h|h|h|h|h|h|h|h|h|h <;>
      subst h <;> simp only [renderDetailLine] <;> decide
  · intro h2
    simp [renderDetailLine, renderDetailValue, h2]

/-- Witness for the C7 theorem: the `Description` entry of a goal with no
description. -/
theorem detail_absent_value_renders_na_witness :
    (renderDetailLine ("Description", (none : Option String))).1 =
      pyLjust ("Description" ++ ":") 20 ∧
    (renderDetailLine ("Description", (none : Option String))).1.length = 20 ∧
    (((none : Option String) = none) →
      (renderDetailLine ("Description", (none : Option String))).2 = "N/A") :=
  detail_absent_value_renders_na 0 emptyGoal ("Description", none)
    (by simp [detailLines, emptyGoal])

/-- C9: the time-left formatter returns `"EXPIRED"` for a negative
remaining duration, `"{days}d {hours}h"` when at least one full day
remains, `"{hours}h {minutes}m"` when no full day but at least one full
hour remains, and `"{minutes}m"` otherwise; in particular `now + 90000s`
gives `"1d 1h"`, `now + 5400s` gives `"1h 30m"`, and `now + 120s` gives
`"2m"`. -/
theorem formatTimeLeft_cases (now t : Int) :
    (t - now < 0 → formatTimeLeft (some t) now = "EXPIRED") ∧
    (0 ≤ t - now → 0 < (t - now) / 86400 →
      formatTimeLeft (some t) now =
        toString ((t - now) / 86400) ++ "d " ++ toString ((t - now) % 86400 / 3600) ++ "h") ∧
    (0 ≤ t - now → (t - now) / 86400 = 0 → 0 < (t - now) % 86400 / 3600 →
      formatTimeLeft (some t) now =
        toString ((t - now) % 86400 / 3600) ++ "h " ++
          toString ((t - now) % 86400 % 3600 / 60) ++ "m") ∧
    (0 ≤ t - now → (t - now) / 86400 = 0 → (t - now) % 86400 / 3600 = 0 →
      formatTimeLeft (some t) now = toString ((t - now) % 86400 % 3600 / 60) ++ "m") ∧
    formatTimeLeft (some (now + 90000)) now = "1d 1h" ∧
    formatTimeLeft (some (now + 5400)) now = "1h 30m" ∧
    formatTimeLeft (some (now + 120)) now = "2m" := by
  have e1 : now + 90000 - now = (90000 : Int) := by ring
  have e2 : now + 5400 - now = (5400 : Int) := by ring
  have e3 : now + 120 - now = (120 : Int) := by ring
  refine ⟨?_, ?_, ?_, ?_, ?_, ?_, ?_⟩
  · intro h
    simp only [formatTimeLeft]
    unfold formatDelta
    rw [if_pos h]
  · intro h1 h2
    simp only [formatTimeLeft]
    unfold formatDelta
    rw [if_neg (by omega), if_pos h2]
  · intro h1 h2 h3
    simp only [formatTimeLeft]
    unfold formatDelta
    rw [if_neg (by omega), if_neg (by omega), if_pos h3]
  · intro h1 h2 h3
    simp only [formatTimeLeft]
    unfold formatDelta
    rw [if_neg (by omega), if_neg (by omega), if_neg (by omega)]
  · simp only [formatTimeLeft, e1]
    decide
  · simp only [formatTimeLeft, e2]
    decide
  · simp only [formatTimeLeft, e3]
    decide

/-- Witness for the C9 theorem at `now = 0`. -/
theorem formatTimeLeft_cases_witness :
    formatTimeLeft (some (-1)) 0 = "EXPIRED" ∧
    formatTimeLeft (some (0 + 90000)) 0 = "1d 1h" ∧
    formatTimeLeft (some (0 + 5400)) 0 = "1h 30m" ∧
    formatTimeLeft (some (0 + 120)) 0 = "2m" :=
  ⟨(formatTimeLeft_cases 0 (-1)).1 (by decide),
    (formatTimeLeft_cases 0 (0 + 90000)).2.2.2.2.1,
    (formatTimeLeft_cases 0 (0 + 5400)).2.2.2.2.2.1,
    (formatTimeLeft_cases 0 (0 + 120)).2.2.2.2.2.2⟩

/-- C10: a goal whose `curval` (resp. `goalval`) is absent has its table
cell rendered as `"0.0"` padded to width 10 — not `"N/A"`, not blank —
and the cell is identical to that of a goal whose value is genuinely
`0.0`. -/
theorem absent_numeric_cells_render_zero (g : BeeminderGoal)
    (hc : g.curval = none) (hg : g.goalval = none) :
    currentCell g = pyLjust "0.0" 10 ∧
    goalCell g = pyLjust "0.0" 10 ∧
    currentCell g ≠ pyLjust "N/A" 10 ∧
    currentCell g ≠ pyLjust "" 10 ∧
    currentCell g = currentCell { g with curval := some 0 } ∧
    goalCell g = goalCell { g with goalval := some 0 } := by
  refine ⟨?_, ?_, ?_, ?_, ?_, ?_⟩ <;>
    simp only [currentCell, goalCell, hc, hg] <;> decide

/-- Witness for the C10 theorem at the all-absent goal record. -/
theorem absent_numeric_cells_render_zero_witness :
    currentCell emptyGoal = pyLjust "0.0" 10 ∧
    goalCell emptyGoal = pyLjust "0.0" 10 ∧
    currentCell emptyGoal ≠ pyLjust "N/A" 10 ∧
    currentCell emptyGoal ≠ pyLjust "" 10 ∧
    currentCell emptyGoal = currentCell { emptyGoal with curval := some 0 } ∧
    goalCell emptyGoal = goalCell { emptyGoal with goalval := some 0 } :=
  absent_numeric_cells_render_zero emptyGoal rfl rfl

end BeeminderCLI
